import Mathlib

/-!
Shallow embedding of the fora recommendation and training subsystem
(server/app/ml/recommender.py and server/app/ml/training.py).

Python floats are modelled as exact rationals where the source only adds,
multiplies and compares them, and as real numbers where the source applies
transcendental functions (exp, log, sqrt, atan2).  Python dictionaries with
insertion order are modelled as association lists, and Python exceptions as
the Except monad.
-/

namespace Fora

/-- Interaction kind weights from CollaborativeFilter.build_user_item_matrix
(recommender.py lines 248-255); dict .get with default 1.0. -/
def interactionWeight (kind : String) : ℚ :=
  if kind = "apply" then 10
  else if kind = "save" then 5
  else if kind = "share" then 3
  else if kind = "click" then 2
  else if kind = "view" then 1
  else if kind = "dismiss" then -5
  else 1

/-- One row of the user_interactions table as consumed by the
collaborative filter. -/
structure Interaction where
  user_uid : String
  listing_id : String
  interaction_type : String
deriving DecidableEq

/-- Sorted distinct user ids of an interaction list: the keys of
user_index_map, which enumerates sorted(users) (recommender.py line 264). -/
def buildUsers (l : List Interaction) : List String :=
  List.insertionSort (· ≤ ·) (l.map (·.user_uid)).dedup

/-- Sorted distinct listing ids: the keys of item_index_map
(recommender.py line 265). -/
def buildItems (l : List Interaction) : List String :=
  List.insertionSort (· ≤ ·) (l.map (·.listing_id)).dedup

/-- Cell of the sparse user-item matrix for given index maps: the sum of the
kind weights of all interactions landing on that (user index, item index)
pair, as accumulated by the defaultdict and csr_matrix construction
(recommender.py lines 268-292). -/
def matrixCellAux (users items : List Interaction → List String)
    (l : List Interaction) (u i : Nat) : ℚ :=
  ((l.filter (fun x =>
      (users l).indexOf x.user_uid = u ∧ (items l).indexOf x.listing_id = i)).map
    (fun x => interactionWeight x.interaction_type)).sum

/-- Cell of the user-item matrix built from an interaction list. -/
def matrixCell (l : List Interaction) (u i : Nat) : ℚ :=
  matrixCellAux buildUsers buildItems l u i

/-- Result of CollaborativeFilter.build_user_item_matrix: the two index maps
(as sorted id lists, the index of an id being its position) and the sparse
matrix (as its cell function). -/
structure BuiltMatrix where
  users : List String
  items : List String
  cell : Nat → Nat → ℚ

/-- CollaborativeFilter.build_user_item_matrix (recommender.py lines 233-295). -/
def build_user_item_matrix (l : List Interaction) : BuiltMatrix :=
  { users := buildUsers l, items := buildItems l, cell := matrixCell l }

/-- Dot product of rows i and j of the matrix over item indices below nItems. -/
def dotCells (cell : Nat → Nat → ℚ) (nItems i j : Nat) : ℚ :=
  ((List.range nItems).map (fun t => cell i t * cell j t)).sum

/-- Cosine similarity between two rows of the user-item matrix, as computed by
sklearn cosine_similarity in CollaborativeFilter.calculate_user_similarity
(recommender.py lines 297-313); a zero row is left unnormalized, giving
similarity 0. -/
noncomputable def cosineSim (cell : Nat → Nat → ℚ) (nItems i j : Nat) : ℝ :=
  let ni : ℝ := Real.sqrt ((dotCells cell nItems i i : ℚ) : ℝ)
  let nj : ℝ := Real.sqrt ((dotCells cell nItems j j : ℚ) : ℝ)
  if ni = 0 ∨ nj = 0 then 0
  else ((dotCells cell nItems i j : ℚ) : ℝ) / (ni * nj)

/-- numpy argsort over indices 0..n-1 in ascending value order.  numpy leaves
the order of tied values implementation defined; this model uses a stable
sort, and every theorem below exercising it has pairwise distinct values. -/
noncomputable def argsortAsc (v : Nat → ℝ) (n : Nat) : List Nat :=
  List.insertionSort (fun i j => v i ≤ v j) (List.range n)

/-- Item indices for which a user row has stored entries: the csr row
.indices set used for the commonly-interacted count (training.py lines
94-96), i.e. the item indices that appeared with that user in the input. -/
def supportOf (l : List Interaction) (u : Nat) : List Nat :=
  ((l.filter (fun x => (buildUsers l).indexOf x.user_uid = u)).map
    (fun x => (buildItems l).indexOf x.listing_id)).dedup

/-- One row upserted into the user_similarity_matrix table
(training.py lines 100-106). -/
structure SimRow where
  user_a_uid : String
  user_b_uid : String
  similarity_score : ℝ
  interaction_count : Nat

/-- Inner per-user storage loop of compute_user_similarity_matrix
(training.py lines 68-109).  The fold state carries the Python local
variable user_a_uid together with the rows upserted so far: the
canonical-order swap on line 91 reassigns that loop variable, so the
swapped value persists into later iterations over this user's neighbors. -/
noncomputable def storeForUser (sim : Nat → Nat → ℝ) (users : List String)
    (support : Nat → List Nat) (aUid : String) (aIdx nUsers : Nat) :
    List SimRow :=
  let top := ((argsortAsc (fun j => sim aIdx j) nUsers).reverse.drop 1).take 50
  (top.foldl
    (fun (st : String × List SimRow) simIdx =>
      if sim aIdx simIdx ≤ 1/10 then st
      else
        match users[simIdx]? with
        | none => st
        | some bUid =>
          if bUid = "" then st
          else
            let a := if bUid < st.1 then bUid else st.1
            let b := if bUid < st.1 then st.1 else bUid
            let common := ((support aIdx).inter (support simIdx)).length
            (a, st.2 ++ [⟨a, b, sim aIdx simIdx, common⟩]))
    (aUid, [])).2

/-- MLTrainingService.compute_user_similarity_matrix (training.py lines
28-111), modelled as the list of rows upserted to user_similarity_matrix in
order; a run whose 90-day window holds fewer than 100 interactions logs a
warning and stores nothing. -/
noncomputable def computeUserSimilarityMatrix (l : List Interaction) :
    List SimRow :=
  if l.length < 100 then []
  else
    let M := build_user_item_matrix l
    let sim := cosineSim M.cell M.items.length
    (M.users.enum.map
      (fun p => storeForUser sim M.users (supportOf l) p.2 p.1 M.users.length)).flatten

/-- One record of the listing_engagement_metrics table as read by
update_engagement_scores. -/
structure EngagementMetric where
  listing_id : String
  view_count : ℕ
  click_count : ℕ
  apply_count : ℕ
  save_count : ℕ
  share_count : ℕ
  dismiss_count : ℕ
deriving DecidableEq

/-- Raw weighted engagement combination computed inline by
update_engagement_scores (training.py lines 136-143). -/
def rawEngagement (m : EngagementMetric) : ℚ :=
  m.apply_count * 10 + m.save_count * 5 + m.share_count * 3 +
    m.click_count * 2 + m.view_count * 1 - m.dismiss_count * 5

/-- Fields written back to listing_engagement_metrics by the hourly job
(training.py lines 163-167). -/
structure MetricUpdate where
  listing_id : String
  engagement_score : ℚ
  trending_score : ℚ
deriving DecidableEq

/-- MLTrainingService.update_engagement_scores (training.py lines 113-171)
over an abstract store: recentCount is the per-listing 24-hour interaction
count query (lines 150-158), which sits outside any try block, so its
failure propagates and aborts the remaining listings; writeFails marks the
update call (lines 162-169), whose failure is caught, logged and skipped.
The result is the list of updates actually written. -/
def updateEngagementScores : List EngagementMetric →
    (String → Except Unit ℕ) → (String → Bool) →
    Except Unit (List MetricUpdate)
  | [], _, _ => .ok []
  | m :: rest, recentCount, writeFails =>
    let e := max 0 (rawEngagement m)
    match recentCount m.listing_id with
    | .error u => .error u
    | .ok recent =>
      let t := e * (3/10) + (recent : ℚ) * 10
      match updateEngagementScores rest recentCount writeFails with
      | .error u => .error u
      | .ok ups =>
        .ok (if writeFails m.listing_id then ups
             else ⟨m.listing_id, e, t⟩ :: ups)

/-- RecommendationEngine.calculate_engagement_score (recommender.py lines
123-156): the section 4.1 engagement formula, with log1p scaling whenever
the raw combination is positive, floored at 0. -/
noncomputable def calculate_engagement_score
    (view_count click_count apply_count save_count share_count
      dismiss_count : ℕ) : ℝ :=
  let score : ℝ := apply_count * 10 + save_count * 5 + share_count * 3 +
    click_count * 2 + view_count * 1 - dismiss_count * 5
  let scaled := if 0 < score then Real.log (1 + score) * 10 else score
  max 0 scaled

/-- Listing attributes consumed by the feature-vector job. -/
structure ListingInfo where
  tags : List ℤ
  compensation : Option ℚ
  latitude : Option ℚ
  longitude : Option ℚ
deriving DecidableEq

/-- One joined row of user_interactions with its listings record, as
fetched inside update_user_feature_vectors; the listing join may be null. -/
structure IxnListing where
  listing : Option ListingInfo
deriving DecidableEq

/-- Python truthiness of an optional numeric field: None and 0 are falsy. -/
def truthy (o : Option ℚ) : Bool :=
  match o with
  | none => false
  | some x => x ≠ 0

/-- Row upserted into user_feature_vectors (training.py lines 263-270). -/
structure FeatureRow where
  user_uid : String
  tag_preference_vector : List ℚ
  compensation_preference_mean : ℚ
  compensation_preference_std : ℝ
  activity_level : ℚ

/-- Per-user body of update_user_feature_vectors (training.py lines
203-270), run inside the per-user try block: fetch the user's windowed
interactions, aggregate tag frequencies over tag ids 1..50, compensation
mean and standard deviation (only truthy compensations counted), and the
capped activity level; the upsert may itself fail.  An empty fetch result
skips the user without error (line 213). -/
noncomputable def userFeatureRow (fetch : String → Except Unit (List IxnListing))
    (upsertFails : String → Bool) (u : String) :
    Except Unit (Option FeatureRow) :=
  match fetch u with
  | .error e => .error e
  | .ok data =>
    if data = [] then .ok none
    else
      let listings := data.filterMap (·.listing)
      let tagCount : ℤ → ℕ := fun t =>
        ((listings.map (fun L => (L.tags.filter (· = t)).length)).sum)
      let comps := (listings.filter (fun L => truthy L.compensation)).map
        (fun L => L.compensation.getD 0)
      let n := data.length
      let tagVector := ((List.range 50).map
        (fun k => (tagCount (k + 1) : ℚ) / n))
      let mean : ℚ := if comps = [] then 0 else comps.sum / comps.length
      let std : ℝ :=
        if 1 < comps.length then
          Real.sqrt (((((comps.map (fun x => (x - mean) ^ 2)).sum) / comps.length : ℚ)) : ℝ)
        else 0
      let activity : ℚ := min ((n : ℚ) / 100) 1
      if upsertFails u then .error ()
      else .ok (some ⟨u, tagVector, mean, std, activity⟩)

/-- Outer loop of MLTrainingService.update_user_feature_vectors (training.py
lines 173-275): each user's body runs inside try, so a per-user failure is
logged and that user skipped while the loop continues; users whose fetch
comes back empty are skipped silently.  The result is the list of feature
rows actually upserted, in user order. -/
noncomputable def updateUserFeatureVectors (users : List String)
    (fetch : String → Except Unit (List IxnListing))
    (upsertFails : String → Bool) : List FeatureRow :=
  users.foldr
    (fun u acc =>
      match userFeatureRow fetch upsertFails u with
      | .error _ => acc
      | .ok none => acc
      | .ok (some r) => r :: acc) []

/-- Listing data consumed by ContentBasedFilter.create_listing_feature_vector. -/
structure ListingData where
  tags : List ℤ
  compensation : Option ℚ
  latitude : Option ℚ
  longitude : Option ℚ
  view_count : ℕ
  apply_count : ℕ
deriving DecidableEq

/-- One entry of a user's interaction history as consumed by
create_user_preference_vector; the joined listing may be absent. -/
structure UserIxn where
  listing : Option ListingData
  interaction_type : String
deriving DecidableEq

/-- ContentBasedFilter.create_listing_feature_vector (recommender.py lines
387-424): tag one-hot over all_tags, capped normalized compensation,
normalized coordinates (zeros when either coordinate is falsy), and
log-scaled view and apply counters. -/
noncomputable def create_listing_feature_vector (listing : ListingData)
    (all_tags : List ℤ) : List ℝ :=
  (all_tags.map (fun t => if t ∈ listing.tags then (1 : ℝ) else 0)) ++
  [min (((listing.compensation.getD 0 : ℚ) : ℝ) / 1000) 1] ++
  (if truthy listing.latitude ∧ truthy listing.longitude then
    [((listing.latitude.getD 0 : ℚ) : ℝ) / 90,
     ((listing.longitude.getD 0 : ℚ) : ℝ) / 180]
   else [0, 0]) ++
  [Real.log (1 + (listing.view_count : ℝ)) / 10,
   Real.log (1 + (listing.apply_count : ℝ)) / 5]

/-- Interaction weight table local to create_user_preference_vector
(recommender.py lines 449-456); its dismiss weight is -3.0, unlike the
collaborative filter table. -/
def prefWeight (kind : String) : ℚ :=
  if kind = "apply" then 10
  else if kind = "save" then 5
  else if kind = "share" then 3
  else if kind = "click" then 2
  else if kind = "view" then 1
  else if kind = "dismiss" then -3
  else 1

/-- Componentwise addition of equal-length vectors. -/
def vecAdd (u v : List ℝ) : List ℝ := List.zipWith (· + ·) u v

/-- Scalar multiple of a vector. -/
def vecSmul (c : ℝ) (v : List ℝ) : List ℝ := v.map (c * ·)

/-- numpy average of a stack of vectors with the given weights:
componentwise weighted sum divided by the weight total (numpy raises on a
zero weight total; this model returns the Lean division-by-zero default
there, a case no theorem below relies on). -/
noncomputable def npAverage (dim : ℕ) (pairs : List (List ℝ × ℚ)) : List ℝ :=
  let total : ℚ := (pairs.map (·.2)).sum
  ((pairs.foldr (fun p acc => vecAdd (vecSmul (p.2 : ℝ) p.1) acc)
      (List.replicate dim 0)).map (· / (total : ℝ)))

/-- ContentBasedFilter.create_user_preference_vector (recommender.py lines
426-480): zero vector on an empty history or when no interaction carries a
listing, otherwise the weighted average of the interacted listings' feature
vectors under prefWeight. -/
noncomputable def create_user_preference_vector (user_interactions : List UserIxn)
    (all_tags : List ℤ) : List ℝ :=
  if user_interactions = [] then List.replicate (all_tags.length + 5) 0
  else
    let pairs := user_interactions.filterMap
      (fun it => it.listing.map
        (fun L => (create_listing_feature_vector L all_tags,
                   prefWeight it.interaction_type)))
    if pairs = [] then List.replicate (all_tags.length + 5) 0
    else npAverage (all_tags.length + 5) pairs

/-- Modelled from the spec words of section 4.3: userPreferenceVector is the
weighted average, under a caller-supplied weight table, of the feature
vectors of the interacted items (those whose listing data is present),
written componentwise, and the zero vector when there is no history. -/
noncomputable def userPreferenceVectorSpec (user_interactions : List UserIxn)
    (weights : String → ℚ) (all_tags : List ℤ) : List ℝ :=
  let withListing := user_interactions.filterMap
    (fun it => it.listing.map (fun L => (L, weights it.interaction_type)))
  if withListing = [] then List.replicate (all_tags.length + 5) 0
  else
    let totalW : ℝ := ((withListing.map (·.2)).sum : ℚ)
    (List.range (all_tags.length + 5)).map
      (fun k =>
        (withListing.map
          (fun p => (p.2 : ℝ) *
            ((create_listing_feature_vector p.1 all_tags).getD k 0))).sum / totalW)

/-- Two-argument arctangent as in math.atan2, case split on the quadrant. -/
noncomputable def atan2 (y x : ℝ) : ℝ :=
  if 0 < x then Real.arctan (y / x)
  else if x < 0 ∧ 0 ≤ y then Real.arctan (y / x) + Real.pi
  else if x < 0 ∧ y < 0 then Real.arctan (y / x) - Real.pi
  else if x = 0 ∧ 0 < y then Real.pi / 2
  else if x = 0 ∧ y < 0 then -(Real.pi / 2)
  else 0

/-- RecommendationEngine.calculate_location_distance (recommender.py lines
33-62): haversine great-circle distance in kilometers. -/
noncomputable def calculate_location_distance (lat1 lon1 lat2 lon2 : ℝ) : ℝ :=
  let lat1_rad := lat1 * Real.pi / 180
  let lat2_rad := lat2 * Real.pi / 180
  let delta_lat := (lat2 - lat1) * Real.pi / 180
  let delta_lon := (lon2 - lon1) * Real.pi / 180
  let a := Real.sin (delta_lat / 2) ^ 2 +
    Real.cos lat1_rad * Real.cos lat2_rad * Real.sin (delta_lon / 2) ^ 2
  let c := 2 * atan2 (Real.sqrt a) (Real.sqrt (1 - a))
  6371 * c

/-- Exponential decay applied to a distance by calculate_location_score
(recommender.py lines 90-92), clamped to the unit interval. -/
noncomputable def locDecay (max_distance : ℚ) (d : ℝ) : ℝ :=
  max 0 (min 1 (Real.exp (-d / ((max_distance : ℝ) / 3))))

/-- RecommendationEngine.calculate_location_score (recommender.py lines
64-92).  The guard is the Python expression not all([...]) over the four
coordinates, so a missing coordinate and a coordinate equal to 0 both take
the neutral branch. -/
noncomputable def calculate_location_score
    (user_lat user_lon listing_lat listing_lon : Option ℚ)
    (max_distance : ℚ) : ℝ :=
  if truthy user_lat ∧ truthy user_lon ∧ truthy listing_lat ∧ truthy listing_lon
  then
    locDecay max_distance
      (calculate_location_distance
        ((user_lat.getD 0 : ℚ) : ℝ) ((user_lon.getD 0 : ℚ) : ℝ)
        ((listing_lat.getD 0 : ℚ) : ℝ) ((listing_lon.getD 0 : ℚ) : ℝ))
  else 1/2

/-- RecommendationEngine.calculate_tag_similarity (recommender.py lines
94-121): Jaccard index of the two tag id sets, neutral 1/2 when either
list is empty. -/
def calculate_tag_similarity (user_tags listing_tags : List ℤ) : ℚ :=
  if user_tags = [] ∨ listing_tags = [] then 1/2
  else
    let inter := (user_tags.dedup.inter listing_tags.dedup).length
    let union := (user_tags.dedup ++ listing_tags.dedup).dedup.length
    if union = 0 then 0 else (inter : ℚ) / union

/-- RecommendationEngine.calculate_recency_score (recommender.py lines
158-180), with the current time an explicit argument: the Python default
current_time=None falls back to the ambient datetime.utcnow().  Times are
seconds; the age is converted to days. -/
noncomputable def calculate_recency_score (created_at now : ℚ) : ℝ :=
  let age_days : ℝ := ((now - created_at : ℚ) : ℝ) / 86400
  max 0 (min 1 (Real.exp (-age_days / 10)))

/-- RecommendationEngine.calculate_poster_quality_score (recommender.py
lines 182-217).  The expression poster_rating or 3.0 is Python truthiness,
so a rating of 0 also falls back to 3.0. -/
noncomputable def calculate_poster_quality_score (poster_rating : Option ℚ)
    (num_listings_posted num_listings_completed : ℕ) : ℝ :=
  let rating_score : ℝ :=
    ((if truthy poster_rating then poster_rating.getD 0 else 3 : ℚ) : ℝ) / 5
  let completion_rate : ℝ :=
    if 0 < num_listings_posted then
      (num_listings_completed : ℝ) / (max num_listings_posted 1 : ℕ)
    else 1/2
  let experience_factor : ℝ :=
    min 1 (Real.log (1 + (num_listings_posted : ℝ)) / 5)
  max 0 (min 1 (rating_score * 0.5 + completion_rate * 0.3 +
    experience_factor * 0.2))

/-- User profile fields read by the hybrid scorer; max_distance_km is
fetched with default 50. -/
structure UserData where
  latitude : Option ℚ
  longitude : Option ℚ
  max_distance_km : Option ℚ
  preferred_tags : List ℤ
deriving DecidableEq

/-- Candidate listing fields read by the hybrid scorer; created_at is a
timestamp in seconds. -/
structure ListingRec where
  latitude : Option ℚ
  longitude : Option ℚ
  tags : List ℤ
  view_count : ℕ
  click_count : ℕ
  apply_count : ℕ
  save_count : ℕ
  share_count : ℕ
  dismiss_count : ℕ
  created_at : ℚ
  poster_rating : Option ℚ
  poster_num_listings : ℕ
  poster_num_completed : ℕ
deriving DecidableEq

/-- Component score breakdown returned by calculate_hybrid_score. -/
structure Components where
  location : ℝ
  tags : ℝ
  engagement : ℝ
  recency : ℝ
  poster_quality : ℝ
  collaborative : ℝ
  content : ℝ

/-- HybridRecommender.calculate_hybrid_score (recommender.py lines 521-606)
with the default weight dictionary, and the ambient clock passed
explicitly as now (it reaches only the recency component).  The
collaborative and content components are the hard-coded neutral 0.5
placeholders. -/
noncomputable def calculate_hybrid_score (user_uid : String)
    (listing : ListingRec) (user_data : UserData) (now : ℚ) :
    ℝ × Components :=
  let c : Components :=
    { location := calculate_location_score user_data.latitude
        user_data.longitude listing.latitude listing.longitude
        (user_data.max_distance_km.getD 50)
      tags := ((calculate_tag_similarity user_data.preferred_tags
        listing.tags : ℚ) : ℝ)
      engagement := calculate_engagement_score listing.view_count
        listing.click_count listing.apply_count listing.save_count
        listing.share_count listing.dismiss_count / 100
      recency := calculate_recency_score listing.created_at now
      poster_quality := calculate_poster_quality_score listing.poster_rating
        listing.poster_num_listings listing.poster_num_completed
      collaborative := 1/2
      content := 1/2 }
  (0.25 * c.location + 0.20 * c.tags + 0.15 * c.engagement +
    0.10 * c.recency + 0.10 * c.poster_quality + 0.10 * c.collaborative +
    0.10 * c.content, c)

/-- A candidate listing decorated with its recommendation score and
component breakdown. -/
structure RankedListing where
  listing : ListingRec
  recommendation_score : ℝ
  score_components : Components

/-- HybridRecommender.rank_listings (recommender.py lines 608-649) with the
ambient clock explicit: score every candidate, stable-sort descending by
score (Python list.sort with reverse=True is stable), and truncate to
top_n only when top_n is truthy (None and 0 both return the full list). -/
noncomputable def rank_listings (user_uid : String)
    (listings : List ListingRec) (user_data : UserData) (now : ℚ)
    (top_n : Option ℕ) : List RankedListing :=
  let ranked := listings.map (fun L =>
    let sc := calculate_hybrid_score user_uid L user_data now
    RankedListing.mk L sc.1 sc.2)
  let sorted := List.insertionSort
    (fun a b => b.recommendation_score ≤ a.recommendation_score) ranked
  match top_n with
  | none => sorted
  | some n => if n = 0 then sorted else sorted.take n

/-- Mutable state of a CollaborativeFilter instance: the two optional
trained structures plus the id-to-index dictionaries in insertion order. -/
structure CollabState where
  user_item_matrix : Option (Nat → Nat → ℚ)
  user_similarity_matrix : Option (Nat → Nat → ℝ)
  user_index_map : List (String × Nat)
  item_index_map : List (String × Nat)

/-- CollaborativeFilter.calculate_user_similarity (recommender.py lines
297-313): raises ValueError when the user-item matrix has not been built,
otherwise yields the cosine similarity matrix. -/
noncomputable def calculate_user_similarity (st : CollabState) :
    Except String (Nat → Nat → ℝ) :=
  match st.user_item_matrix with
  | none => .error ("User-item matrix not built yet")
  | some M => .ok (cosineSim M st.item_index_map.length)

/-- Accumulation into the defaultdict of listing scores, preserving first
insertion order as Python dicts do. -/
def addScore (acc : List (String × ℝ)) (lid : String) (s : ℝ) :
    List (String × ℝ) :=
  if acc.any (fun p => p.1 = lid) then
    acc.map (fun p => if p.1 = lid then (p.1, p.2 + s) else p)
  else acc ++ [(lid, s)]

/-- CollaborativeFilter.get_recommendations (recommender.py lines 315-376):
empty when either trained structure is absent or the user has no row;
otherwise accumulate similarity-weighted interaction scores from the
top_k argsorted neighbors (the top entry dropped as self) over candidate
listings, and sort descending by score. -/
noncomputable def get_recommendations (st : CollabState) (user_uid : String)
    (candidate_listings : List String) (top_k : ℕ) : List (String × ℝ) :=
  match st.user_item_matrix, st.user_similarity_matrix with
  | some M, some S =>
    match st.user_index_map.find? (fun p => p.1 = user_uid) with
    | none => []
    | some entry =>
      let user_idx := entry.2
      let n := st.user_index_map.length
      let nItems := st.item_index_map.length
      let sims := fun j => S user_idx j
      let similar_users := ((argsortAsc sims n).reverse.drop 1).take top_k
      let scores := similar_users.foldl
        (fun acc j =>
          if sims j ≤ 0 then acc
          else
            (List.range nItems).foldl
              (fun acc2 item_idx =>
                if M j item_idx ≤ 0 then acc2
                else
                  match st.item_index_map.find? (fun p => p.2 = item_idx) with
                  | none => acc2
                  | some q =>
                    if q.1 = "" then acc2
                    else if q.1 ∈ candidate_listings then
                      addScore acc2 q.1 (sims j * M j item_idx)
                    else acc2)
              acc)
        ([] : List (String × ℝ))
      List.insertionSort (fun a b => b.2 ≤ a.2) scores
  | _, _ => []

/-! Claim theorems. -/

/-- C8: when the interaction window holds fewer than 100 interactions,
compute_user_similarity_matrix returns early as a no-op, writing no row to
the persisted similarity structure. -/
theorem C8_insufficient_data_noop (l : List Interaction)
    (h : l.length < 100) : computeUserSimilarityMatrix l = [] := by
  unfold computeUserSimilarityMatrix
  rw [if_pos h]

/-- Witness for C8 at a concrete 1-interaction run. -/
theorem C8_witness :
    ([⟨"u", "i", "view"⟩] : List Interaction).length < 100 ∧
      computeUserSimilarityMatrix [⟨"u", "i", "view"⟩] = [] :=
  ⟨by decide, C8_insufficient_data_noop _ (by decide)⟩

/-- C9: a user with no row in the trained user-item matrix (no entry in
user_index_map) gets the empty recommendation list for any candidate set
and any top_k; the embedded function is total, so no exception escapes. -/
theorem C9_cold_start_empty (st : CollabState) (user : String)
    (cands : List String) (top_k : ℕ)
    (h : ∀ p ∈ st.user_index_map, p.1 ≠ user) :
    get_recommendations st user cands top_k = [] := by
  have h1 : st.user_index_map.find? (fun p => p.1 = user) = none := by
    apply List.find?_eq_none.mpr
    intro p hp
    simp [h p hp]
  unfold get_recommendations
  cases hm : st.user_item_matrix with
  | none => rfl
  | some M =>
    cases hs : st.user_similarity_matrix with
    | none => rfl
    | some S => rw [h1]

/-- Witness for C9 on a built state whose map lacks the queried user. -/
theorem C9_witness :
    get_recommendations
      ⟨some (fun _ _ => 0), some (fun _ _ => 0), [("a", 0)], [("x", 0)]⟩
      "b" ["x"] 10 = [] :=
  C9_cold_start_empty _ _ _ _ (by decide)

/-- C10: with the matrix or the similarity structure absent,
get_recommendations silently returns the empty list, while
calculate_user_similarity raises ValueError in the unbuilt state. -/
theorem C10_unbuilt_state (st : CollabState) (user : String)
    (cands : List String) (top_k : ℕ) :
    (st.user_item_matrix = none ∨ st.user_similarity_matrix = none →
      get_recommendations st user cands top_k = []) ∧
    (st.user_item_matrix = none →
      calculate_user_similarity st =
        .error ("User-item matrix not built yet")) := by
  constructor
  · intro h
    unfold get_recommendations
    rcases h with h | h
    · rw [h]
    · rw [h]
      cases st.user_item_matrix <;> rfl
  · intro h
    unfold calculate_user_similarity
    rw [h]

/-- Witness for C10 on the freshly-constructed unbuilt state. -/
theorem C10_witness :
    get_recommendations ⟨none, none, [], []⟩ "u" [] 5 = [] ∧
      calculate_user_similarity ⟨none, none, [], []⟩ =
        .error ("User-item matrix not built yet") :=
  ⟨(C10_unbuilt_state ⟨none, none, [], []⟩ "u" [] 5).1 (Or.inl rfl),
   (C10_unbuilt_state ⟨none, none, [], []⟩ "u" [] 5).2 rfl⟩

/-- Sorting the deduplicated entries of permuted lists yields equal results. -/
theorem sortedDedup_perm_eq {l l' : List String} (h : List.Perm l l') :
    List.insertionSort (· ≤ ·) l.dedup = List.insertionSort (· ≤ ·) l'.dedup := by
  have hs1 : List.Sorted (fun a b : String => a ≤ b)
      (List.insertionSort (· ≤ ·) l.dedup) := List.sorted_insertionSort _ _
  have hs2 : List.Sorted (fun a b : String => a ≤ b)
      (List.insertionSort (· ≤ ·) l'.dedup) := List.sorted_insertionSort _ _
  exact List.eq_of_perm_of_sorted
    (((List.perm_insertionSort _ _).trans h.dedup).trans
      (List.perm_insertionSort _ _).symm) hs1 hs2

/-- The sorted distinct user ids are permutation invariant. -/
theorem buildUsers_perm {l l' : List Interaction} (h : List.Perm l l') :
    buildUsers l = buildUsers l' :=
  sortedDedup_perm_eq (h.map _)

/-- The sorted distinct item ids are permutation invariant. -/
theorem buildItems_perm {l l' : List Interaction} (h : List.Perm l l') :
    buildItems l = buildItems l' :=
  sortedDedup_perm_eq (h.map _)

/-- C7: build_user_item_matrix is order independent, index maps included,
with each cell the sum of the kind weights of the interactions on that
pair; and the single apply interaction yields cell value 10. -/
theorem C7_build_matrix_order_independent :
    (∀ l l' : List Interaction, List.Perm l l' →
      build_user_item_matrix l = build_user_item_matrix l') ∧
    (build_user_item_matrix [⟨"u1", "i1", "apply"⟩]).cell 0 0 = 10 := by
  constructor
  · intro l l' h
    have hu : buildUsers l = buildUsers l' := buildUsers_perm h
    have hi : buildItems l = buildItems l' := buildItems_perm h
    have hcell : matrixCell l = matrixCell l' := by
      funext u i
      unfold matrixCell matrixCellAux
      rw [← hu, ← hi]
      exact List.Perm.sum_eq ((h.filter _).map _)
    unfold build_user_item_matrix
    rw [hu, hi, hcell]
  · norm_num [build_user_item_matrix, matrixCell, matrixCellAux, buildUsers,
      buildItems, interactionWeight, List.insertionSort, List.orderedInsert]

/-- Witness for C7 on a concrete two-element permutation. -/
theorem C7_witness :
    build_user_item_matrix [⟨"a", "x", "view"⟩, ⟨"b", "y", "save"⟩] =
      build_user_item_matrix [⟨"b", "y", "save"⟩, ⟨"a", "x", "view"⟩] :=
  C7_build_matrix_order_independent.1 _ _ (by decide)

/-- Engagement metric with a single apply interaction and nothing else. -/
def exMetric : EngagementMetric := ⟨"L", 0, 0, 1, 0, 0, 0⟩

/-- Counterexample to C1: on a metric with one apply, the hourly job writes
engagement_score 10 (raw combination floored at 0, no logarithmic scaling)
and trending_score 3, while the section 4.1 formula
calculate_engagement_score yields log1p(10)*10, which is not 10. -/
theorem C1_counterexample :
    updateEngagementScores [exMetric] (fun _ => .ok 0) (fun _ => false) =
      .ok [⟨"L", 10, 3⟩] ∧
    calculate_engagement_score 0 0 1 0 0 0 ≠ 10 := by
  constructor
  · simp [updateEngagementScores, rawEngagement, exMetric]
    norm_num
  · have h11 : Real.exp 1 < 11 := lt_trans Real.exp_one_lt_d9 (by norm_num)
    have hl : 1 < Real.log 11 := (Real.lt_log_iff_exp_lt (by norm_num)).mpr h11
    have hv : calculate_engagement_score 0 0 1 0 0 0 = Real.log 11 * 10 := by
      unfold calculate_engagement_score
      norm_num
      linarith
    rw [hv]
    nlinarith [hl]

/-- C1 amended: in a run where every 24-hour-count read succeeds and no
write fails, the hourly job writes, for every metric record, the raw
weighted engagement combination floored at 0 (without log1p scaling) as
engagement_score, and engagement_score*0.3 plus 10 times the 24-hour
interaction count as trending_score. -/
theorem C1_engagement_job_amended (metrics : List EngagementMetric)
    (cnt : String → ℕ) :
    updateEngagementScores metrics (fun s => .ok (cnt s)) (fun _ => false) =
      .ok (metrics.map (fun m =>
        ⟨m.listing_id, max 0 (rawEngagement m),
          max 0 (rawEngagement m) * (3/10) + (cnt m.listing_id : ℚ) * 10⟩)) := by
  induction metrics with
  | nil => rfl
  | cons m rest ih => simp [updateEngagementScores, ih]

/-- Engagement metric with a single view interaction on a second listing. -/
def exMetric2 : EngagementMetric := ⟨"L2", 1, 0, 0, 0, 0, 0⟩

/-- Counterexample to C5: when the per-item 24-hour-count read fails for
the first listing, update_engagement_scores aborts with the exception and
the second listing is not processed at all, even though processing it
alone succeeds. -/
theorem C5_counterexample :
    updateEngagementScores [exMetric, exMetric2]
        (fun s => if s = "L" then .error () else .ok 0)
        (fun _ => false) = .error () ∧
    updateEngagementScores [exMetric2] (fun _ => .ok 0) (fun _ => false) =
      .ok [⟨"L2", 1, 3/10⟩] := by
  constructor
  · rfl
  · simp [updateEngagementScores, rawEngagement, exMetric2]

/-- C5 amended: a failed per-item write in update_engagement_scores is
logged and that item skipped while every other item is still written, and
in update_user_feature_vectors any per-user failure (fetch or upsert) is
caught, that user skipped, and every other user still processed; the
read abort of the counterexample is the only exception to per-entity
isolation. -/
theorem C5_per_entity_isolation :
    (∀ (metrics : List EngagementMetric) (cnt : String → ℕ)
        (writeFails : String → Bool),
      updateEngagementScores metrics (fun s => .ok (cnt s)) writeFails =
        .ok ((metrics.filter (fun m => !writeFails m.listing_id)).map
          (fun m =>
            ⟨m.listing_id, max 0 (rawEngagement m),
              max 0 (rawEngagement m) * (3/10) +
                (cnt m.listing_id : ℚ) * 10⟩))) ∧
    (∀ (users : List String) (fetch : String → Except Unit (List IxnListing))
        (upsertFails : String → Bool),
      updateUserFeatureVectors users fetch upsertFails =
        users.filterMap (fun u =>
          match userFeatureRow fetch upsertFails u with
          | .ok (some r) => some r
          | .ok none => none
          | .error _ => none)) := by
  constructor
  · intro metrics cnt writeFails
    induction metrics with
    | nil => rfl
    | cons m rest ih =>
      by_cases hw : writeFails m.listing_id <;>
        simp [updateEngagementScores, ih, hw]
  · intro users fetch upsertFails
    induction users with
    | nil => rfl
    | cons u rest ih =>
      unfold updateUserFeatureVectors at ih ⊢
      rw [List.foldr_cons, ih, List.filterMap_cons]
      cases userFeatureRow fetch upsertFails u with
      | error e => rfl
      | ok o => cases o <;> rfl

/-- The haversine distance from a point to itself is zero. -/
theorem calculate_location_distance_self (p q : ℝ) :
    calculate_location_distance p q p q = 0 := by
  unfold calculate_location_distance atan2
  norm_num [Real.sqrt_one]

/-- The clamped exponential decay is strictly decreasing on nonnegative
distances when the maximum distance is positive. -/
theorem locDecay_strict_anti (maxd : ℚ) (d1 d2 : ℝ) (h0 : 0 ≤ d1)
    (h12 : d1 < d2) (hm : 0 < maxd) :
    locDecay maxd d2 < locDecay maxd d1 := by
  unfold locDecay
  have hk : (0:ℝ) < (maxd : ℝ) / 3 := by
    have : (0:ℝ) < (maxd : ℝ) := by exact_mod_cast hm
    linarith
  have e1 : Real.exp (-d1 / ((maxd : ℝ) / 3)) ≤ 1 := by
    rw [← Real.exp_zero]
    apply Real.exp_le_exp.mpr
    apply div_nonpos_of_nonpos_of_nonneg (by linarith) (le_of_lt hk)
  have e2 : Real.exp (-d2 / ((maxd : ℝ) / 3)) ≤ 1 := by
    rw [← Real.exp_zero]
    apply Real.exp_le_exp.mpr
    apply div_nonpos_of_nonpos_of_nonneg (by linarith) (le_of_lt hk)
  rw [min_eq_right e1, min_eq_right e2,
    max_eq_right (Real.exp_pos _).le, max_eq_right (Real.exp_pos _).le]
  apply Real.exp_lt_exp.mpr
  apply (div_lt_div_iff_of_pos_right hk).mpr
  linarith

/-- Counterexample to C6: the pair of identical non-null points with
latitude 0 scores the neutral 1/2, not 1.0, because the Python guard
not all([...]) treats the coordinate 0.0 as missing. -/
theorem C6_counterexample :
    calculate_location_score (some 0) (some 10) (some 0) (some 10) 50 = 1/2 ∧
      ((1:ℝ)/2) ≠ 1 := by
  constructor
  · unfold calculate_location_score
    rw [if_neg]
    simp [truthy]
  · norm_num

/-- C6 amended: identical points all of whose coordinates are non-null and
nonzero score exactly 1.0; whenever all four coordinates are non-null and
nonzero the score is the clamped exponential decay of the haversine
distance, and that decay is strictly decreasing in distance for a positive
maximum distance; and the score is the neutral 1/2 whenever any of the
four coordinates is missing or equal to zero. -/
theorem C6_location_score_amended :
    (∀ p q maxd : ℚ, p ≠ 0 → q ≠ 0 → 0 < maxd →
      calculate_location_score (some p) (some q) (some p) (some q) maxd = 1) ∧
    (∀ a b c d maxd : ℚ, a ≠ 0 → b ≠ 0 → c ≠ 0 → d ≠ 0 →
      calculate_location_score (some a) (some b) (some c) (some d) maxd =
        locDecay maxd
          (calculate_location_distance ((a:ℚ):ℝ) ((b:ℚ):ℝ) ((c:ℚ):ℝ) ((d:ℚ):ℝ))) ∧
    (∀ (maxd : ℚ) (d1 d2 : ℝ), 0 ≤ d1 → d1 < d2 → 0 < maxd →
      locDecay maxd d2 < locDecay maxd d1) ∧
    (∀ (ulat ulon llat llon : Option ℚ) (maxd : ℚ),
      ¬(truthy ulat ∧ truthy ulon ∧ truthy llat ∧ truthy llon) →
      calculate_location_score ulat ulon llat llon maxd = 1/2) := by
  refine ⟨?_, ?_, locDecay_strict_anti, ?_⟩
  · intro p q maxd hp hq _
    unfold calculate_location_score
    rw [if_pos (by simp [truthy, hp, hq])]
    simp only [Option.getD_some]
    rw [calculate_location_distance_self]
    unfold locDecay
    norm_num
  · intro a b c d maxd ha hb hc hd
    unfold calculate_location_score
    rw [if_pos (by simp [truthy, ha, hb, hc, hd])]
    simp only [Option.getD_some]
  · intro ulat ulon llat llon maxd h
    unfold calculate_location_score
    rw [if_neg h]

/-- Witness for C6 at concrete nonzero points and distances. -/
theorem C6_witness :
    calculate_location_score (some 1) (some 2) (some 1) (some 2) 50 = 1 ∧
      locDecay 50 2 < locDecay 50 1 ∧
      calculate_location_score none (some 3) (some 4) (some 5) 50 = 1/2 :=
  ⟨C6_location_score_amended.1 1 2 50 (by norm_num) (by norm_num) (by norm_num),
   C6_location_score_amended.2.2.1 50 1 2 (by norm_num) (by norm_num) (by norm_num),
   C6_location_score_amended.2.2.2 none (some 3) (some 4) (some 5) 50
     (by simp [truthy])⟩

/-- User context with no coordinates and no preferred tags. -/
def exUser : UserData := ⟨none, none, none, []⟩

/-- Candidate listing created at timestamp 0 with empty counters. -/
def exListing : ListingRec :=
  ⟨none, none, [], 0, 0, 0, 0, 0, 0, 0, none, 0, 0⟩

/-- Recency of the example listing seen from its creation instant. -/
theorem recency_at_zero : calculate_recency_score 0 0 = 1 := by
  unfold calculate_recency_score
  norm_num

/-- Recency of the example listing seen ten days later. -/
theorem recency_at_ten_days : calculate_recency_score 0 864000 = Real.exp (-1) := by
  unfold calculate_recency_score
  have h1 : Real.exp (-1 : ℝ) ≤ 1 := by
    rw [← Real.exp_zero]
    exact Real.exp_le_exp.mpr (by norm_num)
  norm_num
  exact (Real.exp_pos _).le

/-- Counterexample to C4: rank_listings reads the ambient clock through the
recency component (calculate_recency_score defaults its current_time to
datetime.utcnow()), so the same user, candidate list, user context and
top_n produce different ranked output at two different instants. -/
theorem C4_counterexample :
    rank_listings ("u") [exListing] exUser 0 none ≠
      rank_listings ("u") [exListing] exUser 864000 none := by
  intro h
  have hs : (calculate_hybrid_score ("u") exListing exUser 0).1 =
      (calculate_hybrid_score ("u") exListing exUser 864000).1 := by
    have h1 := congrArg (fun xs => (xs.map (·.recommendation_score)).headI) h
    simpa [rank_listings, List.insertionSort, List.orderedInsert] using h1
  have hrec : calculate_recency_score exListing.created_at 0 =
      calculate_recency_score exListing.created_at 864000 := by
    unfold calculate_hybrid_score at hs
    dsimp only at hs
    linarith
  have : (1:ℝ) = Real.exp (-1) := by
    have e0 : exListing.created_at = 0 := rfl
    rw [e0] at hrec
    rw [recency_at_zero, recency_at_ten_days] at hrec
    exact hrec
  have hlt : Real.exp (-1 : ℝ) < 1 := by
    rw [← Real.exp_zero]
    exact Real.exp_lt_exp.mpr (by norm_num)
  linarith

/-- C4 amended: rank_listings is a deterministic function of its inputs
and the ambient clock, and it depends on the clock only through the
recency component: two clock instants giving equal recency scores on
every candidate produce identical ranked output. -/
theorem C4_rank_listings_amended (user_uid : String)
    (listings : List ListingRec) (user_data : UserData) (top_n : Option ℕ)
    (now1 now2 : ℚ)
    (h : ∀ L ∈ listings, calculate_recency_score L.created_at now1 =
      calculate_recency_score L.created_at now2) :
    rank_listings user_uid listings user_data now1 top_n =
      rank_listings user_uid listings user_data now2 top_n := by
  unfold rank_listings
  have hmap : listings.map (fun L =>
      let sc := calculate_hybrid_score user_uid L user_data now1
      RankedListing.mk L sc.1 sc.2) = listings.map (fun L =>
      let sc := calculate_hybrid_score user_uid L user_data now2
      RankedListing.mk L sc.1 sc.2) := by
    apply List.map_congr_left
    intro L hL
    have hh : calculate_hybrid_score user_uid L user_data now1 =
        calculate_hybrid_score user_uid L user_data now2 := by
      unfold calculate_hybrid_score
      rw [h L hL]
    rw [hh]
  rw [hmap]

/-- Witness for C4 amended with a vacuous recency premise. -/
theorem C4_witness :
    rank_listings ("u") [] exUser 0 (some 3) =
      rank_listings ("u") [] exUser 5 (some 3) :=
  C4_rank_listings_amended ("u") [] exUser (some 3) 0 5 (by simp)

/-- The feature vector of a listing has the tag-universe length plus five. -/
theorem length_feature_vector (L : ListingData) (tags : List ℤ) :
    (create_listing_feature_vector L tags).length = tags.length + 5 := by
  unfold create_listing_feature_vector
  by_cases h : truthy L.latitude ∧ truthy L.longitude <;> simp [h]

/-- Adding a scaled vector of full length onto the image of range is again
an image of range. -/
theorem vecAdd_smul_range (v : List ℝ) (w : ℝ) (g : ℕ → ℝ) (dim : ℕ)
    (hv : v.length = dim) :
    vecAdd (vecSmul w v) ((List.range dim).map g) =
      (List.range dim).map (fun k => w * v.getD k 0 + g k) := by
  apply List.ext_getElem
  · simp [vecAdd, vecSmul, hv]
  · intro i h1 h2
    have hi : i < dim := by simpa using h2
    simp only [vecAdd, vecSmul, List.getElem_zipWith, List.getElem_map,
      List.getElem_range]
    rw [List.getD_eq_getElem _ _ (by omega : i < v.length)]

/-- The weighted accumulation fold of npAverage is the pointwise weighted
sum over index positions. -/
theorem weightedFold_eq (dim : ℕ) (pairs : List (List ℝ × ℚ))
    (h : ∀ p ∈ pairs, p.1.length = dim) :
    pairs.foldr (fun p acc => vecAdd (vecSmul (p.2 : ℝ) p.1) acc)
        (List.replicate dim 0) =
      (List.range dim).map
        (fun k => (pairs.map (fun p => (p.2 : ℝ) * p.1.getD k 0)).sum) := by
  induction pairs with
  | nil =>
    simp only [List.foldr_nil, List.map_nil, List.sum_nil]
    apply List.ext_getElem <;> simp
  | cons p ps ih =>
    have hps : ∀ q ∈ ps, q.1.length = dim := fun q hq => h q (List.mem_cons_of_mem _ hq)
    simp only [List.foldr_cons, ih hps]
    rw [vecAdd_smul_range _ _ _ _ (h p (List.mem_cons_self _ _))]
    simp

/-- Rewriting of the interacted-pair extraction: the feature-vector pairs
of the source are the map of the listing pairs of the specification. -/
theorem pairs_eq_mapped (ixns : List UserIxn) (tags : List ℤ) :
    ixns.filterMap (fun it => it.listing.map
      (fun L => (create_listing_feature_vector L tags,
        prefWeight it.interaction_type))) =
    (ixns.filterMap (fun it => it.listing.map
      (fun L => (L, prefWeight it.interaction_type)))).map
      (fun q => (create_listing_feature_vector q.1 tags, q.2)) := by
  induction ixns with
  | nil => rfl
  | cons it rest ih =>
    cases h : it.listing <;> simp [List.filterMap_cons, h, ih]

/-- C3 amended: create_user_preference_vector is the weighted average of
the interacted listings' feature vectors under its own local weight table
prefWeight, whose dismiss weight is -3.0 (not the collaborative filter
table, whose dismiss weight is -5.0), and it returns the zero vector on an
empty interaction history. -/
theorem C3_pref_vector_amended :
    (∀ (ixns : List UserIxn) (all_tags : List ℤ),
      create_user_preference_vector ixns all_tags =
        userPreferenceVectorSpec ixns prefWeight all_tags) ∧
    (∀ all_tags : List ℤ,
      create_user_preference_vector [] all_tags =
        List.replicate (all_tags.length + 5) 0) := by
  constructor
  · intro ixns all_tags
    unfold create_user_preference_vector userPreferenceVectorSpec
    by_cases hempty : ixns = []
    · subst hempty
      simp
    · rw [if_neg hempty, pairs_eq_mapped]
      set wl := ixns.filterMap (fun it => it.listing.map
        (fun L => (L, prefWeight it.interaction_type))) with hwl
      by_cases hwle : wl = []
      · simp [hwle]
      · rw [if_neg (by simpa using hwle), if_neg hwle]
        unfold npAverage
        rw [weightedFold_eq (all_tags.length + 5)
          (h := by
            intro p hp
            rcases List.mem_map.mp hp with ⟨q, _, rfl⟩
            exact length_feature_vector _ _)]
        rw [List.map_map, List.map_map]
        apply List.map_congr_left
        intro k _
        simp [div_eq_mul_inv, Function.comp_def]
  · intro all_tags
    unfold create_user_preference_vector
    simp

/-- Listing carrying tag 1 and nothing else. -/
def exL1 : ListingData := ⟨[1], none, none, none, 0, 0⟩

/-- Listing carrying no tags and nothing else. -/
def exL2 : ListingData := ⟨[], none, none, none, 0, 0⟩

/-- Feature vector of exL1 over the tag universe with the single tag 1. -/
theorem exL1_features :
    create_listing_feature_vector exL1 [1] = [1, 0, 0, 0, 0, 0] := by
  unfold create_listing_feature_vector exL1
  norm_num [truthy, Real.log_one]

/-- Feature vector of exL2 over the tag universe with the single tag 1. -/
theorem exL2_features :
    create_listing_feature_vector exL2 [1] = [0, 0, 0, 0, 0, 0] := by
  unfold create_listing_feature_vector exL2
  norm_num [truthy, Real.log_one]

/-- Counterexample to C3: on a two-interaction history of one dismiss of a
listing with tag 1 and one view of a tagless listing, the source computes
the first component as (-3*1 + 1*0)/(-3 + 1) = 3/2 under its local dismiss
weight -3.0, while the weighted average under the collaborative filter
InteractionWeight table (dismiss = -5) would give (-5*1 + 0)/(-4) = 5/4. -/
theorem C3_counterexample :
    create_user_preference_vector
        [⟨some exL1, "dismiss"⟩, ⟨some exL2, "view"⟩] [1] ≠
      userPreferenceVectorSpec
        [⟨some exL1, "dismiss"⟩, ⟨some exL2, "view"⟩] interactionWeight [1] := by
  intro h
  have h0 := congrArg (fun v : List ℝ => v.getD 0 0) h
  have hL : create_user_preference_vector
      [⟨some exL1, "dismiss"⟩, ⟨some exL2, "view"⟩] [1] = [3/2, 0, 0, 0, 0, 0] := by
    unfold create_user_preference_vector npAverage
    simp [List.filterMap_cons, prefWeight, exL1_features, exL2_features,
      vecAdd, vecSmul]
    norm_num
  have hR : userPreferenceVectorSpec
      [⟨some exL1, "dismiss"⟩, ⟨some exL2, "view"⟩] interactionWeight [1] =
      (List.range 6).map (fun k =>
        ((-5 : ℝ) * ((create_listing_feature_vector exL1 [1]).getD k 0) +
          1 * ((create_listing_feature_vector exL2 [1]).getD k 0)) / (-4)) := by
    unfold userPreferenceVectorSpec
    simp [List.filterMap_cons, interactionWeight]
    norm_num
  rw [hL, hR] at h0
  simp [exL1_features, exL2_features] at h0
  norm_num at h0

/-- Failing input for the similarity job: 150 view interactions giving
user rows a = (10, 0), b = (30, 40), c = (40, 30) over items x, y.  All
row norms are integers (10, 50, 50), so every pairwise cosine similarity
is rational: sim(a,b) = 3/5, sim(a,c) = 4/5, sim(b,c) = 24/25. -/
def exInput : List Interaction :=
  List.replicate 10 ⟨"a", "x", "view"⟩ ++ List.replicate 30 ⟨"b", "x", "view"⟩ ++
  List.replicate 40 ⟨"b", "y", "view"⟩ ++ List.replicate 40 ⟨"c", "x", "view"⟩ ++
  List.replicate 30 ⟨"c", "y", "view"⟩

set_option maxRecDepth 100000

/-- User index map of the failing input. -/
theorem exInput_users : buildUsers exInput = ["a", "b", "c"] := by
  have hsorted : List.Sorted (fun a b : String => a ≤ b) ["a", "b", "c"] := by
    simp [List.sorted_cons]
    decide
  have hnd1 : ((exInput.map (·.user_uid)).dedup).Nodup := List.nodup_dedup _
  have hnd2 : (["a", "b", "c"] : List String).Nodup := by decide
  have hperm : (exInput.map (·.user_uid)).dedup.Perm ["a", "b", "c"] := by
    rw [List.perm_ext_iff_of_nodup hnd1 hnd2]
    intro x
    simp [exInput, List.mem_replicate]
  exact List.eq_of_perm_of_sorted
    ((List.perm_insertionSort _ _).trans hperm)
    (List.sorted_insertionSort _ _) hsorted

/-- Item index map of the failing input. -/
theorem exInput_items : buildItems exInput = ["x", "y"] := by
  have hsorted : List.Sorted (fun a b : String => a ≤ b) ["x", "y"] := by
    simp [List.sorted_cons]
    decide
  have hnd1 : ((exInput.map (·.listing_id)).dedup).Nodup := List.nodup_dedup _
  have hnd2 : (["x", "y"] : List String).Nodup := by decide
  have hperm : (exInput.map (·.listing_id)).dedup.Perm ["x", "y"] := by
    rw [List.perm_ext_iff_of_nodup hnd1 hnd2]
    intro x
    simp [exInput, List.mem_replicate]
  exact List.eq_of_perm_of_sorted
    ((List.perm_insertionSort _ _).trans hperm)
    (List.sorted_insertionSort _ _) hsorted

/-- Matrix cell of the failing input: user a on item x. -/
theorem exCell_00 : matrixCell exInput 0 0 = 10 := by
  unfold matrixCell matrixCellAux
  rw [exInput_users, exInput_items]
  rw [show exInput.filter (fun x =>
      (["a", "b", "c"] : List String).indexOf x.user_uid = 0 ∧
      (["x", "y"] : List String).indexOf x.listing_id = 0) =
      List.replicate 10 ⟨"a", "x", "view"⟩ from by decide]
  simp [interactionWeight]
  norm_num

/-- Matrix cell of the failing input: user a on item y. -/
theorem exCell_01 : matrixCell exInput 0 1 = 0 := by
  unfold matrixCell matrixCellAux
  rw [exInput_users, exInput_items]
  rw [show exInput.filter (fun x =>
      (["a", "b", "c"] : List String).indexOf x.user_uid = 0 ∧
      (["x", "y"] : List String).indexOf x.listing_id = 1) =
      [] from by decide]
  simp

/-- Matrix cell of the failing input: user b on item x. -/
theorem exCell_10 : matrixCell exInput 1 0 = 30 := by
  unfold matrixCell matrixCellAux
  rw [exInput_users, exInput_items]
  rw [show exInput.filter (fun x =>
      (["a", "b", "c"] : List String).indexOf x.user_uid = 1 ∧
      (["x", "y"] : List String).indexOf x.listing_id = 0) =
      List.replicate 30 ⟨"b", "x", "view"⟩ from by decide]
  simp [interactionWeight]
  norm_num

/-- Matrix cell of the failing input: user b on item y. -/
theorem exCell_11 : matrixCell exInput 1 1 = 40 := by
  unfold matrixCell matrixCellAux
  rw [exInput_users, exInput_items]
  rw [show exInput.filter (fun x =>
      (["a", "b", "c"] : List String).indexOf x.user_uid = 1 ∧
      (["x", "y"] : List String).indexOf x.listing_id = 1) =
      List.replicate 40 ⟨"b", "y", "view"⟩ from by decide]
  simp [interactionWeight]
  norm_num

/-- Matrix cell of the failing input: user c on item x. -/
theorem exCell_20 : matrixCell exInput 2 0 = 40 := by
  unfold matrixCell matrixCellAux
  rw [exInput_users, exInput_items]
  rw [show exInput.filter (fun x =>
      (["a", "b", "c"] : List String).indexOf x.user_uid = 2 ∧
      (["x", "y"] : List String).indexOf x.listing_id = 0) =
      List.replicate 40 ⟨"c", "x", "view"⟩ from by decide]
  simp [interactionWeight]
  norm_num

/-- Matrix cell of the failing input: user c on item y. -/
theorem exCell_21 : matrixCell exInput 2 1 = 30 := by
  unfold matrixCell matrixCellAux
  rw [exInput_users, exInput_items]
  rw [show exInput.filter (fun x =>
      (["a", "b", "c"] : List String).indexOf x.user_uid = 2 ∧
      (["x", "y"] : List String).indexOf x.listing_id = 1) =
      List.replicate 30 ⟨"c", "y", "view"⟩ from by decide]
  simp [interactionWeight]
  norm_num

/-- The two-item dot product of rows of the failing-input matrix. -/
theorem exDot (i j : Nat) :
    dotCells (matrixCell exInput) 2 i j =
      matrixCell exInput i 0 * matrixCell exInput j 0 +
      matrixCell exInput i 1 * matrixCell exInput j 1 := by
  simp [dotCells, List.range_succ]

/-- Norm of row a of the failing-input matrix. -/
theorem exNorm_0 : Real.sqrt ((dotCells (matrixCell exInput) 2 0 0 : ℚ) : ℝ) = 10 := by
  rw [exDot, exCell_00, exCell_01]
  rw [show ((10 * 10 + 0 * 0 : ℚ) : ℝ) = (10 : ℝ) ^ 2 by norm_num]
  exact Real.sqrt_sq (by norm_num)

/-- Norm of row b of the failing-input matrix. -/
theorem exNorm_1 : Real.sqrt ((dotCells (matrixCell exInput) 2 1 1 : ℚ) : ℝ) = 50 := by
  rw [exDot, exCell_10, exCell_11]
  rw [show ((30 * 30 + 40 * 40 : ℚ) : ℝ) = (50 : ℝ) ^ 2 by norm_num]
  exact Real.sqrt_sq (by norm_num)

/-- Norm of row c of the failing-input matrix. -/
theorem exNorm_2 : Real.sqrt ((dotCells (matrixCell exInput) 2 2 2 : ℚ) : ℝ) = 50 := by
  rw [exDot, exCell_20, exCell_21]
  rw [show ((40 * 40 + 30 * 30 : ℚ) : ℝ) = (50 : ℝ) ^ 2 by norm_num]
  exact Real.sqrt_sq (by norm_num)

/-- Cosine similarity entries of the failing-input matrix. -/
theorem exSim_00 : cosineSim (matrixCell exInput) 2 0 0 = 1 := by
  unfold cosineSim
  simp only [exNorm_0]
  rw [if_neg (by norm_num), exDot, exCell_00, exCell_01]
  norm_num

/-- Cosine similarity entries of the failing-input matrix. -/
theorem exSim_01 : cosineSim (matrixCell exInput) 2 0 1 = 3/5 := by
  unfold cosineSim
  simp only [exNorm_0, exNorm_1]
  rw [if_neg (by norm_num), exDot, exCell_00, exCell_01, exCell_10, exCell_11]
  norm_num

/-- Cosine similarity entries of the failing-input matrix. -/
theorem exSim_02 : cosineSim (matrixCell exInput) 2 0 2 = 4/5 := by
  unfold cosineSim
  simp only [exNorm_0, exNorm_2]
  rw [if_neg (by norm_num), exDot, exCell_00, exCell_01, exCell_20, exCell_21]
  norm_num

/-- Cosine similarity entries of the failing-input matrix. -/
theorem exSim_10 : cosineSim (matrixCell exInput) 2 1 0 = 3/5 := by
  unfold cosineSim
  simp only [exNorm_0, exNorm_1]
  rw [if_neg (by norm_num), exDot, exCell_00, exCell_01, exCell_10, exCell_11]
  norm_num

/-- Cosine similarity entries of the failing-input matrix. -/
theorem exSim_11 : cosineSim (matrixCell exInput) 2 1 1 = 1 := by
  unfold cosineSim
  simp only [exNorm_1]
  rw [if_neg (by norm_num), exDot, exCell_10, exCell_11]
  norm_num

/-- Cosine similarity entries of the failing-input matrix. -/
theorem exSim_12 : cosineSim (matrixCell exInput) 2 1 2 = 24/25 := by
  unfold cosineSim
  simp only [exNorm_1, exNorm_2]
  rw [if_neg (by norm_num), exDot, exCell_10, exCell_11, exCell_20, exCell_21]
  norm_num

/-- Cosine similarity entries of the failing-input matrix. -/
theorem exSim_20 : cosineSim (matrixCell exInput) 2 2 0 = 4/5 := by
  unfold cosineSim
  simp only [exNorm_0, exNorm_2]
  rw [if_neg (by norm_num), exDot, exCell_00, exCell_01, exCell_20, exCell_21]
  norm_num

/-- Cosine similarity entries of the failing-input matrix. -/
theorem exSim_21 : cosineSim (matrixCell exInput) 2 2 1 = 24/25 := by
  unfold cosineSim
  simp only [exNorm_1, exNorm_2]
  rw [if_neg (by norm_num), exDot, exCell_10, exCell_11, exCell_20, exCell_21]
  norm_num

/-- Cosine similarity entries of the failing-input matrix. -/
theorem exSim_22 : cosineSim (matrixCell exInput) 2 2 2 = 1 := by
  unfold cosineSim
  simp only [exNorm_2]
  rw [if_neg (by norm_num), exDot, exCell_20, exCell_21]
  norm_num

/-- Stored-entry item indices of the three users of the failing input. -/
theorem exSupport_0 : supportOf exInput 0 = [0] := by
  unfold supportOf
  rw [exInput_users, exInput_items]
  decide

/-- Stored-entry item indices of the three users of the failing input. -/
theorem exSupport_1 : supportOf exInput 1 = [0, 1] := by
  unfold supportOf
  rw [exInput_users, exInput_items]
  decide

/-- Stored-entry item indices of the three users of the failing input. -/
theorem exSupport_2 : supportOf exInput 2 = [0, 1] := by
  unfold supportOf
  rw [exInput_users, exInput_items]
  decide

/-- String comparison fact for the canonical-order swap. -/
theorem str_lt_ab : ("a" : String) < "b" := by
  rw [String.lt_iff_toList_lt]
  decide

/-- String comparison fact for the canonical-order swap. -/
theorem str_lt_bc : ("b" : String) < "c" := by
  rw [String.lt_iff_toList_lt]
  decide

/-- String comparison fact for the canonical-order swap. -/
theorem str_not_lt_ba : ¬ ("b" : String) < "a" := by
  rw [String.lt_iff_toList_lt]
  decide

/-- String comparison fact for the canonical-order swap. -/
theorem str_not_lt_ca : ¬ ("c" : String) < "a" := by
  rw [String.lt_iff_toList_lt]
  decide

/-- String comparison fact for the canonical-order swap. -/
theorem str_not_lt_cb : ¬ ("c" : String) < "b" := by
  rw [String.lt_iff_toList_lt]
  decide

/-- Character-data forms of the literal user ids. -/
theorem data_a : ("a" : String).data = ['a'] := rfl

/-- Character-data forms of the literal user ids. -/
theorem data_b : ("b" : String).data = ['b'] := rfl

/-- Character-data forms of the literal user ids. -/
theorem data_c : ("c" : String).data = ['c'] := rfl

/-- Character-level comparison fact for the canonical-order swap. -/
theorem char_lt_ab : (['a'] : List Char) < ['b'] := by decide

/-- Character-level comparison fact. -/
theorem char_lt_bc : (['b'] : List Char) < ['c'] := by decide

/-- Character-level comparison fact. -/
theorem char_not_lt_ba : ¬ (['b'] : List Char) < ['a'] := by decide

/-- Character-level comparison fact. -/
theorem char_not_lt_ca : ¬ (['c'] : List Char) < ['a'] := by decide

/-- Character-level comparison fact. -/
theorem char_not_lt_cb : ¬ (['c'] : List Char) < ['b'] := by decide

/-- Literal user ids are nonempty strings. -/
theorem ne_empty_a : ¬ ("a" : String) = "" := by decide

/-- Literal user ids are nonempty strings. -/
theorem ne_empty_b : ¬ ("b" : String) = "" := by decide

/-- Literal user ids are nonempty strings. -/
theorem ne_empty_c : ¬ ("c" : String) = "" := by decide

/-- Rows stored while processing user c of the failing input: the first
neighbor b triggers the swap, clobbering the loop variable, so the second
row pairs a and b while carrying the similarity of c and a. -/
theorem exStore_c :
    storeForUser (cosineSim (matrixCell exInput) 2) ["a", "b", "c"]
      (supportOf exInput) "c" 2 3 =
      [⟨"b", "c", 24/25, 2⟩, ⟨"a", "b", 4/5, 1⟩] := by
  unfold storeForUser argsortAsc
  norm_num [show List.range 3 = [0, 1, 2] from rfl, List.insertionSort,
    List.orderedInsert, exSim_20, exSim_21, exSim_22, exSupport_0,
    exSupport_1, exSupport_2, str_lt_ab, str_lt_bc, str_not_lt_ba,
    str_not_lt_ca, str_not_lt_cb, data_a, data_b, data_c, char_lt_ab,
    char_lt_bc, char_not_lt_ba, char_not_lt_ca, char_not_lt_cb, ne_empty_a,
    ne_empty_b, ne_empty_c, List.inter, List.foldl]

/-- Rows stored while processing user a of the failing input: no swap
occurs, so both rows pair a with its own neighbors and similarities. -/
theorem exStore_a :
    storeForUser (cosineSim (matrixCell exInput) 2) ["a", "b", "c"]
      (supportOf exInput) "a" 0 3 =
      [⟨"a", "c", 4/5, 1⟩, ⟨"a", "b", 3/5, 1⟩] := by
  unfold storeForUser argsortAsc
  norm_num [show List.range 3 = [0, 1, 2] from rfl, List.insertionSort,
    List.orderedInsert, exSim_00, exSim_01, exSim_02, exSupport_0,
    exSupport_1, exSupport_2, str_lt_ab, str_lt_bc, str_not_lt_ba,
    str_not_lt_ca, str_not_lt_cb, data_a, data_b, data_c, char_lt_ab,
    char_lt_bc, char_not_lt_ba, char_not_lt_ca, char_not_lt_cb, ne_empty_a,
    ne_empty_b, ne_empty_c, List.inter, List.foldl]

/-- Rows stored while processing user b of the failing input: the second
neighbor a triggers the swap, and the loop then ends. -/
theorem exStore_b :
    storeForUser (cosineSim (matrixCell exInput) 2) ["a", "b", "c"]
      (supportOf exInput) "b" 1 3 =
      [⟨"b", "c", 24/25, 2⟩, ⟨"a", "b", 3/5, 1⟩] := by
  unfold storeForUser argsortAsc
  norm_num [show List.range 3 = [0, 1, 2] from rfl, List.insertionSort,
    List.orderedInsert, exSim_10, exSim_11, exSim_12, exSupport_0,
    exSupport_1, exSupport_2, str_lt_ab, str_lt_bc, str_not_lt_ba,
    str_not_lt_ca, str_not_lt_cb, data_a, data_b, data_c, char_lt_ab,
    char_lt_bc, char_not_lt_ba, char_not_lt_ca, char_not_lt_cb, ne_empty_a,
    ne_empty_b, ne_empty_c, List.inter, List.foldl]

/-- The full row list the similarity job upserts on the failing input. -/
theorem exPipeline_eval :
    computeUserSimilarityMatrix exInput =
      [⟨"a", "c", 4/5, 1⟩, ⟨"a", "b", 3/5, 1⟩,
       ⟨"b", "c", 24/25, 2⟩, ⟨"a", "b", 3/5, 1⟩,
       ⟨"b", "c", 24/25, 2⟩, ⟨"a", "b", 4/5, 1⟩] := by
  unfold computeUserSimilarityMatrix
  rw [if_neg (by decide)]
  simp only [build_user_item_matrix, exInput_users, exInput_items]
  simp only [show (["a", "b", "c"] : List String).enum =
    [(0, "a"), (1, "b"), (2, "c")] from rfl]
  simp only [List.map_cons, List.map_nil, List.length_cons, List.length_nil,
    show (["x", "y"] : List String).length = 2 from rfl]
  rw [show (0 : ℕ) + 1 + 1 + 1 = 3 from rfl]
  rw [exStore_a, exStore_b, exStore_c]
  rfl

/-- C2 is violated by the code: on the failing input the job upserts the
row (a, b, 4/5, 1), whose similarity 4/5 is the cosine of users c and a,
while the true cosine of the stored pair (a, b) is 3/5: the canonical-order
swap clobbers the Python loop variable user_a_uid, so this row pairs
neither user c, being processed, with its neighbor, nor carries the
similarity of the pair it names. -/
theorem C2_clobbered_row :
    SimRow.mk ("a") ("b") (4/5) 1 ∈ computeUserSimilarityMatrix exInput ∧
      cosineSim (matrixCell exInput) 2 0 1 = 3/5 ∧ ((4 : ℝ)/5) ≠ 3/5 := by
  refine ⟨?_, exSim_01, by norm_num⟩
  rw [exPipeline_eval]
  simp

end Fora
